import Mathlib

/-!
Shallow embedding of the client-side aggregation, merge, flatten, form-cleaning
and CSV-export logic of the empowerdreamz web application, together with
theorems settling the specification's claims about that logic.

Currency and other numeric fields are modelled as rationals (JavaScript numbers
on the inputs the pages handle), document-optional fields as `Option`, and
JavaScript string truthiness (the empty string is falsy) explicitly at each use
site. Browser primitives that the spec places out of scope (locale date
formatting, number printing, `Date` parsing) are parameters of the definitions
that call them.
-/

namespace EmpowerDreamz

/-- Lowercasing as JavaScript's `toLowerCase`, character by character. -/
def jsToLower (s : String) : String := ⟨s.data.map Char.toLower⟩

/-- Whitespace trimming as JavaScript's `trim`: leading and trailing whitespace
characters are removed. -/
def jsTrim (s : String) : String :=
  ⟨((s.data.dropWhile Char.isWhitespace).reverse.dropWhile Char.isWhitespace).reverse⟩

/-- JavaScript `a || b` on an optional string `a`: `undefined` and the empty
string are falsy, so both fall through to `b`. -/
def jsStrOr (a : Option String) (b : String) : String :=
  match a with
  | some s => if s = "" then b else s
  | none => b

/-! ## Progress percentages (claim C1)

Three display sites compute a percentage from a raised/spent figure and a goal:
the dashboard projects page helper `progressPct`, the public ledger page's
project cards, and the public giving-circle page's allocation bar. -/

/-- Helper `progressPct` of the dashboard projects page:
`(raised = 0, goal = 1) => goal > 0 ? Math.min((raised / goal) * 100, 100) : 0`. -/
def progressPct (raised goal : ℚ) : ℚ :=
  if 0 < goal then min (raised / goal * 100) 100 else 0

/-- Width of the progress bar on the public ledger page's project cards:
`project.goal > 0 ? Math.min((project.raised / project.goal) * 100, 100) : 0`. -/
def ledgerBarPct (raised goal : ℚ) : ℚ :=
  if 0 < goal then min (raised / goal * 100) 100 else 0

/-- Numeric percentage label next to that bar:
`project.goal > 0 ? Math.round((project.raised / project.goal) * 100) : 0`.
JavaScript `Math.round` is `⌊x + 1/2⌋`, which is Mathlib's `round`. -/
def ledgerLabelPct (raised goal : ℚ) : ℤ :=
  if 0 < goal then round (raised / goal * 100) else 0

/-- Width of the allocation bar on the public giving-circle page, rendered only
when `workspace.totalReceived > 0`:
`Math.min((totalSpent / workspace.totalReceived) * 100, 100)`. -/
def givingCircleBarPct (totalSpent totalReceived : ℚ) : ℚ :=
  min (totalSpent / totalReceived * 100) 100

/-- Numeric percentage label next to the giving-circle allocation bar:
`Math.min(Math.round((totalSpent / workspace.totalReceived) * 100), 100)`. -/
def givingCircleLabelPct (totalSpent totalReceived : ℚ) : ℤ :=
  min (round (totalSpent / totalReceived * 100)) 100

/-! ## Partners: seed/live merge and contribution rollup (claims C3, C7) -/

/-- Partner record of the public partners page (`interface Partner`). -/
structure Partner where
  id : String
  name : String
  logo : String
  website : Option String
  amount : Option ℚ
  project : Option String
  note : Option String
  date : Option String
  featured : Bool
deriving DecidableEq

/-- The hardcoded `FOUNDING_PARTNERS` seed list of the public partners page. -/
def FOUNDING_PARTNERS : List Partner :=
  [{ id := "grow-with-google", name := "Grow with Google",
     logo := "/grow-with-google-logo.png", website := some "https://grow.google",
     amount := none, project := none, note := none, date := none, featured := true },
   { id := "goodstack", name := "GoodStack",
     logo := "/60.png", website := some "https://goodstack.org/",
     amount := none, project := none, note := none, date := none, featured := true },
   { id := "techsoup", name := "TechSoup",
     logo := "/TechSoup-US-Logo.png", website := some "https://www.techsoup.org",
     amount := none, project := none, note := none, date := none, featured := true }]

/-- The page's `foundingIds` set: the lowercased names of the seed list
(`new Set(FOUNDING_PARTNERS.map(p => p.name.toLowerCase()))`). -/
def foundingIds (seed : List Partner) : List String :=
  seed.map (fun p => jsToLower p.name)

/-- The page's `additionalPartners`: live records whose lowercased name is not
in `foundingIds` (`firestorePartners.filter(p => !foundingIds.has(p.name.toLowerCase()))`). -/
def additionalPartners (seed live : List Partner) : List Partner :=
  live.filter (fun p => !((foundingIds seed).contains (jsToLower p.name)))

/-- The rendered order of the public partners page: the seed grid first, then
the `additionalPartners` grid. -/
def displayPartners (seed live : List Partner) : List Partner :=
  seed ++ additionalPartners seed live

/-- The page's `contributingPartners`:
`firestorePartners.filter(p => p.amount && p.amount > 0)` (a `0` amount is
falsy, so the filter holds exactly when the amount is present and positive). -/
def contributingPartners (ps : List Partner) : List Partner :=
  ps.filter (fun p => decide (0 < p.amount.getD 0))

/-- The page's `totalContributed`:
`contributingPartners.reduce((sum, p) => sum + (p.amount || 0), 0)`. -/
def totalContributed (ps : List Partner) : ℚ :=
  (contributingPartners ps).foldl (fun sum p => sum + p.amount.getD 0) 0

/-! ## Ledger transactions: rollups and CSV export (claims C7, C9) -/

/-- Transaction record of the public ledger page (`interface Transaction`). -/
structure Transaction where
  id : String
  date : String
  type : String
  category : String
  description : String
  amount : ℚ
  project : String
  receipt : Option String
  paymentMethod : Option String
  donorEmail : Option String
deriving DecidableEq

/-- The ledger page's `totalIncome`:
`transactions.filter(t => t.type === 'income').reduce((sum, t) => sum + t.amount, 0)`. -/
def totalIncome (ts : List Transaction) : ℚ :=
  (ts.filter (fun t => t.type == "income")).foldl (fun sum t => sum + t.amount) 0

/-- The ledger page's `totalExpenses`:
`transactions.filter(t => t.type === 'expense').reduce((sum, t) => sum + t.amount, 0)`. -/
def totalExpenses (ts : List Transaction) : ℚ :=
  (ts.filter (fun t => t.type == "expense")).foldl (fun sum t => sum + t.amount) 0

/-- The `headers` array of the ledger page's `exportToCSV`. -/
def csvHeaders : List String :=
  ["Date", "Type", "Description", "Project", "Amount", "Category", "Receipt/Payment"]

/-- One transaction's cell values in `exportToCSV`, in column order. The
browser primitives `new Date(t.date).toLocaleDateString()` and number
printing are the parameters `dateFmt` and `numFmt`; the last cell is
`t.receipt || t.paymentMethod || ''`. -/
def csvCells (dateFmt : String → String) (numFmt : ℚ → String)
    (t : Transaction) : List String :=
  [dateFmt t.date, t.type, t.description, t.project, numFmt t.amount, t.category,
   jsStrOr t.receipt (jsStrOr t.paymentMethod "")]

/-- One data row of the export: every cell wrapped in double quotes and the
cells joined with commas (`row.map(cell => ...).join(',')`). -/
def csvRowLine (dateFmt : String → String) (numFmt : ℚ → String)
    (t : Transaction) : String :=
  String.intercalate "," ((csvCells dateFmt numFmt t).map (fun c => "\"" ++ c ++ "\""))

/-- The export's `csvContent`: the unquoted header line followed by one quoted
row per transaction, joined with newlines
(`[headers.join(','), ...csvData.map(...)].join('\n')`). -/
def csvContent (dateFmt : String → String) (numFmt : ℚ → String)
    (ts : List Transaction) : String :=
  String.intercalate "\n"
    (String.intercalate "," csvHeaders :: ts.map (csvRowLine dateFmt numFmt))

/-- The export's download filename, where `isoDate` stands for
`new Date().toISOString().split('T')[0]`. -/
def csvFilename (isoDate : String) : String :=
  "ledger-" ++ isoDate ++ ".csv"

/-! ## Projects data model (claims C2, C4, C5, C6, C8, C10) -/

/-- Testimonial entry of a completion form (`{ name; text; role }`). -/
structure Testimonial where
  name : String
  text : String
  role : String
deriving DecidableEq

/-- Impact statistics block of a completion form. -/
structure ImpactStats where
  peopleHelped : ℤ
  itemsDistributed : ℤ
  customMetric : String
deriving DecidableEq

/-- Persisted `completionData` object (`interface CompletionData`; every field
is optional in the document, image lists defaulting to empty). -/
structure CompletionData where
  completedDate : Option String
  completionStory : Option String
  beforeImages : List String
  afterImages : List String
  progressImages : List String
  testimonials : List Testimonial
  impactStats : Option ImpactStats
deriving DecidableEq

/-- Embedded sub-project record (`interface SubProject`). -/
structure SubProject where
  id : String
  title : String
  description : Option String
  communityName : Option String
  goal : ℚ
  raised : ℚ
  isCompleted : Bool
  completionData : Option CompletionData
  createdAt : Option String
deriving DecidableEq

/-- Project document as read by the completed-projects page
(`interface FirestoreProject`); absent boolean flags are falsy, hence `Bool`. -/
structure FirestoreProject where
  id : String
  title : String
  subtitle : Option String
  description : String
  category : String
  goal : ℚ
  raised : Option ℚ
  supporters : Option ℤ
  image : Option String
  isCompleted : Bool
  isParent : Bool
  completionData : Option CompletionData
  subProjects : Option (List SubProject)
deriving DecidableEq

/-- Flattened display item of the completed-projects page
(`interface CompletedItem`). -/
structure CompletedItem where
  id : String
  title : String
  subtitle : Option String
  description : String
  category : String
  goal : ℚ
  raised : Option ℚ
  supporters : Option ℤ
  image : Option String
  completionData : Option CompletionData
  parentTitle : Option String
  communityName : Option String
  isSubProject : Bool
deriving DecidableEq

/-- The item pushed for a top-level completed non-parent project. -/
def topLevelItem (d : FirestoreProject) : CompletedItem :=
  { id := d.id, title := d.title, subtitle := d.subtitle,
    description := d.description, category := d.category, goal := d.goal,
    raised := d.raised, supporters := d.supporters, image := d.image,
    completionData := d.completionData, parentTitle := none,
    communityName := none, isSubProject := false }

/-- The item pushed for a completed sub-project of a parent: id
`` `${data.id}_${sub.id}` ``, description `sub.description || data.description`,
supporters taken from the parent, `parentTitle` the parent's title. -/
def subProjectItem (d : FirestoreProject) (s : SubProject) : CompletedItem :=
  { id := d.id ++ "_" ++ s.id, title := s.title, subtitle := none,
    description := jsStrOr s.description d.description, category := d.category,
    goal := s.goal, raised := some s.raised, supporters := d.supporters,
    image := d.image, completionData := s.completionData,
    parentTitle := some d.title, communityName := s.communityName,
    isSubProject := true }

/-- The items one document contributes to the flattened list: the top-level
push (`data.isCompleted && !data.isParent`) followed by the completed
sub-project pushes (`data.isParent && data.subProjects`, then
`.filter(sub => sub.isCompleted).forEach(...)`). -/
def itemsOf (d : FirestoreProject) : List CompletedItem :=
  (if d.isCompleted && !d.isParent then [topLevelItem d] else [])
    ++ (if d.isParent then
          match d.subProjects with
          | some subs => (subs.filter (fun s => s.isCompleted)).map (subProjectItem d)
          | none => []
        else [])

/-- The completed-projects page's flattening pass over one snapshot:
`snapshot.docs.forEach(...)` pushing `itemsOf` each document in order. -/
def flattenCompleted (docs : List FirestoreProject) : List CompletedItem :=
  docs.flatMap itemsOf

/-- Sort key of the flattened list, where `time` stands for
`d => new Date(d).getTime()`: an absent or empty `completedDate` (both falsy)
yields epoch zero. -/
def completedTimestamp (time : String → ℤ) (it : CompletedItem) : ℤ :=
  match it.completionData with
  | some cd =>
    match cd.completedDate with
    | some d => if d = "" then 0 else time d
    | none => 0
  | none => 0

/-- Insertion step of the page's
`items.sort((a, b) => dateB - dateA)`: descending by sort key, stable. -/
def insertByDateDesc (time : String → ℤ) (x : CompletedItem) :
    List CompletedItem → List CompletedItem
  | [] => [x]
  | y :: ys =>
    if completedTimestamp time y < completedTimestamp time x then x :: y :: ys
    else y :: insertByDateDesc time x ys

/-- The page's sort of the flattened list, descending by completion date. -/
def sortByDateDesc (time : String → ℤ) : List CompletedItem → List CompletedItem
  | [] => []
  | x :: xs => insertByDateDesc time x (sortByDateDesc time xs)

/-! ## Completion form cleaning (claims C4, C5) -/

/-- Completion form state (`defaultCompletionForm` shape: every field
present, image lists and testimonials possibly holding blank entries). -/
structure CompletionFormData where
  completedDate : String
  completionStory : String
  beforeImages : List String
  afterImages : List String
  progressImages : List String
  testimonials : List Testimonial
  impactStats : ImpactStats
deriving DecidableEq

/-- The dashboard's `buildCleanCompletionData` (and the identical inline
`cleanCompletionData` of the projects page's completion submit): image lists
keep entries whose trim is non-empty, testimonials keep entries whose trimmed
name AND trimmed text are both non-empty. -/
def buildCleanCompletionData (f : CompletionFormData) : CompletionData :=
  { completedDate := some f.completedDate,
    completionStory := some f.completionStory,
    beforeImages := f.beforeImages.filter (fun u => jsTrim u != ""),
    afterImages := f.afterImages.filter (fun u => jsTrim u != ""),
    progressImages := f.progressImages.filter (fun u => jsTrim u != ""),
    testimonials := f.testimonials.filter
      (fun t => jsTrim t.name != "" && jsTrim t.text != ""),
    impactStats := some f.impactStats }

/-! ## Project form submission (claim C8) -/

/-- Project form state (`defaultFormData` shape). -/
structure ProjectFormData where
  title : String
  subtitle : String
  tagline : String
  description : String
  callToAction : String
  category : String
  goal : ℚ
  raised : ℚ
  supporters : ℤ
  image : String
  tag : String
  isActive : Bool
  isLive : Bool
  isCompleted : Bool
  isParent : Bool
deriving DecidableEq

/-- A document write the submit handler would issue (create or update of the
form's fields). -/
structure ProjectWrite where
  fields : ProjectFormData
  isCreate : Bool
deriving DecidableEq

/-- Observable outcome of a submit handler: at most one blocking alert and at
most one document write. -/
structure SubmitOutcome where
  alert : Option String
  write : Option ProjectWrite
deriving DecidableEq

/-- The dashboard's `handleProjectSubmit`: when
`!formData.title || !formData.description || formData.goal <= 0` it alerts and
returns before any write; otherwise it updates (when editing) or creates. -/
def handleProjectSubmit (editing : Bool) (f : ProjectFormData) : SubmitOutcome :=
  if f.title = "" ∨ f.description = "" ∨ f.goal ≤ 0 then
    { alert := some "Please fill in all required fields", write := none }
  else
    { alert := none, write := some { fields := f, isCreate := !editing } }

/-- The projects page's `handleSubmit`: the same guard with a longer alert
message. -/
def handleSubmitPage (editing : Bool) (f : ProjectFormData) : SubmitOutcome :=
  if f.title = "" ∨ f.description = "" ∨ f.goal ≤ 0 then
    { alert := some "Please fill in all required fields (Title, Description, Goal)",
      write := none }
  else
    { alert := none, write := some { fields := f, isCreate := !editing } }

/-! ## Embedded-array writes (claim C10) -/

/-- Sub-project form state (`defaultSubProjectForm` shape). -/
structure SubProjectFormData where
  title : String
  description : String
  communityName : String
  goal : ℚ
  raised : ℚ
deriving DecidableEq

/-- The spread `{ ...s, ...subFormData }` of `handleSubProjectSubmit`'s edit
branch: the five form fields replace the record's, the rest keep. -/
def applySubProjectForm (f : SubProjectFormData) (s : SubProject) : SubProject :=
  { s with
    title := f.title, description := some f.description,
    communityName := some f.communityName, goal := f.goal, raised := f.raised }

/-- `handleSubProjectSubmit`'s edit branch over the parent's embedded array:
`currentSubs.map(s => s.id === editingSubProject.id ? { ...s, ...subFormData } : s)`. -/
def editSubProjectsArray (editingId : String) (f : SubProjectFormData)
    (subs : List SubProject) : List SubProject :=
  subs.map (fun s => if s.id = editingId then applySubProjectForm f s else s)

/-- `handleCompletionSubmit`'s sub-project branch:
`subs.map(s => s.id === completingSubProject.id ? { ...s, isCompleted: true, completionData: cleanData } : s)`. -/
def completeSubProjectsArray (subId : String) (cd : CompletionData)
    (subs : List SubProject) : List SubProject :=
  subs.map (fun s =>
    if s.id = subId then { s with isCompleted := true, completionData := some cd }
    else s)

/-- Embedded workspace expense record (`interface Expense`). -/
structure Expense where
  id : String
  description : String
  amount : ℚ
  date : Option String
  note : Option String
deriving DecidableEq

/-- Expense form state (`defaultExpenseForm` shape). -/
structure ExpenseFormData where
  description : String
  amount : ℚ
  date : String
  note : String
deriving DecidableEq

/-- The spread `{ ...ex, ...expenseForm, amount: Number(expenseForm.amount) }`
of `handleExpenseSubmit`'s edit branch. -/
def applyExpenseForm (f : ExpenseFormData) (e : Expense) : Expense :=
  { e with
    description := f.description, amount := f.amount,
    date := some f.date, note := some f.note }

/-- `handleExpenseSubmit`'s edit branch over the workspace's embedded array:
`current.map(ex => ex.id === editingExpense.id ? { ...ex, ...expenseForm, amount: Number(expenseForm.amount) } : ex)`. -/
def editExpensesArray (editingId : String) (f : ExpenseFormData)
    (es : List Expense) : List Expense :=
  es.map (fun e => if e.id = editingId then applyExpenseForm f e else e)

/-- `handleDeleteExpense`'s write:
`deletingExpense.workspace.expenses.filter(e => e.id !== deletingExpense.expense.id)`. -/
def deleteExpenseArray (deleteId : String) (es : List Expense) : List Expense :=
  es.filter (fun e => e.id != deleteId)

/-! ## Concrete records used by the claims' worked examples -/

/-- Seed partner of the C3 example, `{name:"Acme"}`. -/
def acmeSeed : Partner :=
  { id := "seed-acme", name := "Acme", logo := "/acme.png", website := none,
    amount := none, project := none, note := none, date := none, featured := true }

/-- Live partner of the C3 example colliding with the seed, `{name:"ACME"}`. -/
def acmeLive : Partner :=
  { id := "live-acme", name := "ACME", logo := "", website := none,
    amount := none, project := none, note := none, date := none, featured := false }

/-- Live partner of the C3 example with a fresh name, `{name:"Beta"}`. -/
def betaLive : Partner :=
  { id := "live-beta", name := "Beta", logo := "", website := none,
    amount := none, project := none, note := none, date := none, featured := false }

/-- Completed sub-project of the C2 example, Well A. -/
def wellA : SubProject :=
  { id := "well-a", title := "Well A", description := none, communityName := none,
    goal := 5000, raised := 5000, isCompleted := true,
    completionData := some
      { completedDate := some "2024-01-01", completionStory := none,
        beforeImages := [], afterImages := [], progressImages := [],
        testimonials := [], impactStats := none },
    createdAt := none }

/-- Incomplete sub-project of the C2 example, Well B. -/
def wellB : SubProject :=
  { id := "well-b", title := "Well B", description := none, communityName := none,
    goal := 4000, raised := 1000, isCompleted := false, completionData := none,
    createdAt := none }

/-- Parent project of the C2 example, Water Program, with sub-projects
Well A (completed) and Well B (not completed). -/
def waterProgram : FirestoreProject :=
  { id := "water-program", title := "Water Program", subtitle := none,
    description := "Clean water for rural communities", category := "water",
    goal := 10000, raised := some 6000, supporters := some 40, image := none,
    isCompleted := false, isParent := true, completionData := none,
    subProjects := some [wellA, wellB] }

/-- Income transaction of amount 100 for the C7 example. -/
def txn100 : Transaction :=
  { id := "t1", date := "2024-01-01", type := "income", category := "donation",
    description := "Donation from Anonymous", amount := 100, project := "General",
    receipt := none, paymentMethod := some "Stripe", donorEmail := none }

/-- Income transaction of amount 250 for the C7 example. -/
def txn250 : Transaction :=
  { id := "t2", date := "2024-01-02", type := "income", category := "donation",
    description := "Donation from Anonymous", amount := 250, project := "General",
    receipt := none, paymentMethod := some "Stripe", donorEmail := none }

/-- Default impact statistics block of the completion form. -/
def defaultImpactStats : ImpactStats :=
  { peopleHelped := 0, itemsDistributed := 0, customMetric := "" }

/-- Testimonial with a non-blank name but blank text, for the C4
counterexample. -/
def aliceNoText : Testimonial := { name := "Alice", text := "", role := "" }

/-- Completion form whose only testimonial has a name but no text. -/
def c4Form : CompletionFormData :=
  { completedDate := "2024-01-01", completionStory := "Done",
    beforeImages := [], afterImages := [], progressImages := [],
    testimonials := [aliceNoText], impactStats := defaultImpactStats }

/-- Completion form of the C5 example, with
`beforeImages: ["", "http://x/1.jpg", ""]`. -/
def c5Form : CompletionFormData :=
  { completedDate := "2024-01-01", completionStory := "Done",
    beforeImages := ["", "http://x/1.jpg", ""], afterImages := [],
    progressImages := [], testimonials := [], impactStats := defaultImpactStats }

/-- Project form with an empty title, for the C8 witness. -/
def emptyTitleForm : ProjectFormData :=
  { title := "", subtitle := "", tagline := "", description := "Helps people",
    callToAction := "", category := "water", goal := 500, raised := 0,
    supporters := 0, image := "", tag := "", isActive := true, isLive := false,
    isCompleted := false, isParent := false }

/-! ## Shared helper lemmas -/

/-- Folding `+ f a` over a list starting from `c` is `c` plus the sum of the
mapped list. -/
theorem foldl_add_eq {α : Type} (f : α → ℚ) (l : List α) (c : ℚ) :
    l.foldl (fun sum a => sum + f a) c = c + (l.map f).sum := by
  induction l generalizing c with
  | nil => simp
  | cons a as ih => simp [ih, add_assoc]

/-- Membership failure in the lowercased-name set is the pointwise
all-names-differ test of the claim. -/
theorem not_contains_eq_all (seed : List Partner) (x : String) :
    (!((foundingIds seed).contains x))
      = seed.all (fun s => jsToLower s.name != x) := by
  induction seed with
  | nil => rfl
  | cons s rest ih =>
    simp only [foundingIds, List.map_cons, List.contains_cons, Bool.not_or,
      List.all_cons, bne] at *
    rw [ih]
    have hsymm : (x == jsToLower s.name) = (jsToLower s.name == x) := by
      by_cases h : x = jsToLower s.name
      · subst h; rfl
      · rw [beq_eq_false_iff_ne.mpr h, beq_eq_false_iff_ne.mpr (Ne.symm h)]
    rw [hsymm]

/-- The ledger income rollup is the sum of the amounts of the income
transactions. -/
theorem totalIncome_eq_sum (ts : List Transaction) :
    totalIncome ts
      = ((ts.filter (fun t => t.type == "income")).map Transaction.amount).sum := by
  rw [totalIncome, foldl_add_eq]; rw [zero_add]

/-- The ledger expense rollup is the sum of the amounts of the expense
transactions. -/
theorem totalExpenses_eq_sum (ts : List Transaction) :
    totalExpenses ts
      = ((ts.filter (fun t => t.type == "expense")).map Transaction.amount).sum := by
  rw [totalExpenses, foldl_add_eq]; rw [zero_add]

/-- The partner contribution rollup is the sum of the contributing partners'
amounts. -/
theorem totalContributed_eq_sum (ps : List Partner) :
    totalContributed ps
      = ((contributingPartners ps).map (fun p => p.amount.getD 0)).sum := by
  rw [totalContributed, foldl_add_eq]; rw [zero_add]

/-! ## Claim theorems -/

/-- Claim C1, amended: at every display site the progress-bar percentage is 0
when the goal is non-positive and `min(raised/goal*100, 100)` otherwise; the
numeric label is the rounded percentage, unclamped on the ledger page (it
reads 300 at a 3x-overfunded project) but clamped to at most 100 on the
giving-circle page. -/
theorem c1_progress_display (raised goal totalSpent totalReceived : ℚ) :
    (goal ≤ 0 → progressPct raised goal = 0 ∧ ledgerBarPct raised goal = 0
      ∧ ledgerLabelPct raised goal = 0)
    ∧ (0 < goal →
        progressPct raised goal = min (raised / goal * 100) 100
        ∧ ledgerBarPct raised goal = min (raised / goal * 100) 100
        ∧ ledgerLabelPct raised goal = round (raised / goal * 100))
    ∧ givingCircleBarPct totalSpent totalReceived
        = min (totalSpent / totalReceived * 100) 100
    ∧ givingCircleLabelPct totalSpent totalReceived ≤ 100
    ∧ ledgerLabelPct 300 100 = 300 := by
  refine ⟨fun h => ⟨?_, ?_, ?_⟩, fun h => ⟨?_, ?_, ?_⟩, rfl, min_le_right _ _, ?_⟩
  · rw [progressPct, if_neg (not_lt.mpr h)]
  · rw [ledgerBarPct, if_neg (not_lt.mpr h)]
  · rw [ledgerLabelPct, if_neg (not_lt.mpr h)]
  · rw [progressPct, if_pos h]
  · rw [ledgerBarPct, if_pos h]
  · rw [ledgerLabelPct, if_pos h]
  · rw [ledgerLabelPct, if_pos (by norm_num : (0:ℚ) < 100)]
    norm_num [round_eq]

/-- Claim C1 counterexample: on the giving-circle page with 300 spent against
100 received, the unclamped percentage is 300 but the rendered numeric label
is 100, so the label does not use the unclamped percentage. -/
theorem c1_label_unclamped_cex :
    givingCircleLabelPct 300 100 = 100
    ∧ (300:ℚ) / 100 * 100 = 300
    ∧ givingCircleLabelPct 300 100 ≠ 300 := by
  have h : givingCircleLabelPct 300 100 = 100 := by
    rw [givingCircleLabelPct]; norm_num [round_eq]
  exact ⟨h, by norm_num, by rw [h]; decide⟩

/-- Claim C3: the merged partner display is the seed list followed by exactly
the live entries whose lowercased name matches no seed entry's lowercased
name; merging seed `[Acme]` with live `[ACME, Beta]` keeps the seed record on
the collision and yields names `[Acme, Beta]`. -/
theorem c3_partner_merge :
    (∀ seed live : List Partner,
      displayPartners seed live
        = seed ++ live.filter (fun p =>
            seed.all (fun s => jsToLower s.name != jsToLower p.name)))
    ∧ displayPartners [acmeSeed] [acmeLive, betaLive] = [acmeSeed, betaLive]
    ∧ (displayPartners [acmeSeed] [acmeLive, betaLive]).map Partner.name
        = ["Acme", "Beta"] := by
  refine ⟨fun seed live => ?_, by decide, by decide⟩
  unfold displayPartners additionalPartners
  congr 1
  exact List.filter_congr (fun p _ => not_contains_eq_all seed (jsToLower p.name))

/-- Claim C7: the ledger and partner rollups (sums and counts) are invariant
under permutation of the input list and deterministic; donations of 100 and
250 sum to 350 with count 2 in either order. -/
theorem c7_rollup_invariance :
    (∀ ts₁ ts₂ : List Transaction, ts₁.Perm ts₂ →
        totalIncome ts₁ = totalIncome ts₂
        ∧ totalExpenses ts₁ = totalExpenses ts₂
        ∧ (ts₁.filter (fun t => t.type == "income")).length
            = (ts₂.filter (fun t => t.type == "income")).length)
    ∧ (∀ ps₁ ps₂ : List Partner, ps₁.Perm ps₂ →
        totalContributed ps₁ = totalContributed ps₂
        ∧ (contributingPartners ps₁).length = (contributingPartners ps₂).length)
    ∧ totalIncome [txn100, txn250] = 350
    ∧ totalIncome [txn250, txn100] = 350
    ∧ ([txn100, txn250].filter (fun t => t.type == "income")).length = 2 := by
  refine ⟨fun ts₁ ts₂ h => ⟨?_, ?_, ?_⟩, fun ps₁ ps₂ h => ⟨?_, ?_⟩, ?_, ?_, by decide⟩
  · rw [totalIncome_eq_sum, totalIncome_eq_sum]
    exact ((h.filter _).map _).sum_eq
  · rw [totalExpenses_eq_sum, totalExpenses_eq_sum]
    exact ((h.filter _).map _).sum_eq
  · exact (h.filter _).length_eq
  · rw [totalContributed_eq_sum, totalContributed_eq_sum]
    exact (((h.filter _).map _)).sum_eq
  · exact (h.filter _).length_eq
  · rw [totalIncome_eq_sum]; norm_num [txn100, txn250]
  · rw [totalIncome_eq_sum]; norm_num [txn100, txn250]

/-- Membership in one document's contribution to the flattened list: either
the top-level completed non-parent item, or a completed sub-project item. -/
theorem mem_itemsOf (d : FirestoreProject) (it : CompletedItem) :
    it ∈ itemsOf d ↔
      (d.isCompleted = true ∧ d.isParent = false ∧ it = topLevelItem d)
      ∨ (∃ subs, d.subProjects = some subs ∧ d.isParent = true
          ∧ ∃ s ∈ subs, s.isCompleted = true ∧ subProjectItem d s = it) := by
  unfold itemsOf
  cases hc : d.isCompleted <;> cases hp : d.isParent <;>
    cases hs : d.subProjects <;>
      simp [hc, hp, hs, List.mem_filter, List.mem_map, and_assoc]

/-- Stable descending insertion permutes its input. -/
theorem insertByDateDesc_perm (time : String → ℤ) (x : CompletedItem)
    (l : List CompletedItem) : (insertByDateDesc time x l).Perm (x :: l) := by
  induction l with
  | nil => rfl
  | cons y ys ih =>
    rw [insertByDateDesc]
    split
    · exact List.Perm.refl _
    · exact (ih.cons y).trans (List.Perm.swap x y ys)

/-- Stable descending insertion preserves descending order of the sort keys. -/
theorem insertByDateDesc_pairwise (time : String → ℤ) (x : CompletedItem)
    (l : List CompletedItem)
    (h : l.Pairwise (fun a b => completedTimestamp time b ≤ completedTimestamp time a)) :
    (insertByDateDesc time x l).Pairwise
      (fun a b => completedTimestamp time b ≤ completedTimestamp time a) := by
  induction l with
  | nil => exact List.pairwise_singleton _ _
  | cons y ys ih =>
    rw [List.pairwise_cons] at h
    obtain ⟨hy, hys⟩ := h
    rw [insertByDateDesc]
    split
    case isTrue hlt =>
      rw [List.pairwise_cons]
      refine ⟨fun b hb => ?_, List.pairwise_cons.mpr ⟨hy, hys⟩⟩
      rcases List.mem_cons.mp hb with rfl | hb
      · exact le_of_lt hlt
      · exact le_trans (hy b hb) (le_of_lt hlt)
    case isFalse hge =>
      rw [List.pairwise_cons]
      refine ⟨fun b hb => ?_, ih hys⟩
      rcases List.mem_cons.mp ((insertByDateDesc_perm time x ys).mem_iff.mp hb)
        with rfl | hb
      · exact not_lt.mp hge
      · exact hy b hb

/-- The page's date sort permutes the flattened list. -/
theorem sortByDateDesc_perm (time : String → ℤ) (items : List CompletedItem) :
    (sortByDateDesc time items).Perm items := by
  induction items with
  | nil => rfl
  | cons x xs ih =>
    rw [sortByDateDesc]
    exact (insertByDateDesc_perm time x _).trans (ih.cons x)

/-- The page's date sort leaves the sort keys descending. -/
theorem sortByDateDesc_pairwise (time : String → ℤ) (items : List CompletedItem) :
    (sortByDateDesc time items).Pairwise
      (fun a b => completedTimestamp time b ≤ completedTimestamp time a) := by
  induction items with
  | nil => exact List.Pairwise.nil
  | cons x xs ih =>
    rw [sortByDateDesc]
    exact insertByDateDesc_pairwise _ _ _ ih

/-- Claim C2: the flattened completed-items list holds exactly the completed
non-parent projects and the completed sub-projects of parents, the latter
tagged with the parent's title and carrying the parent's supporters count;
flattening the Water Program parent (Well A completed, Well B not) yields
exactly the one item Well A tagged with the parent's title. -/
theorem c2_flatten_completed :
    (∀ (docs : List FirestoreProject) (it : CompletedItem),
      it ∈ flattenCompleted docs ↔
        (∃ d ∈ docs, d.isCompleted = true ∧ d.isParent = false ∧ it = topLevelItem d)
        ∨ (∃ d ∈ docs, ∃ subs, d.subProjects = some subs ∧ d.isParent = true
            ∧ ∃ s ∈ subs, s.isCompleted = true ∧ it = subProjectItem d s))
    ∧ (∀ (d : FirestoreProject) (s : SubProject),
        (subProjectItem d s).parentTitle = some d.title
        ∧ (subProjectItem d s).supporters = d.supporters)
    ∧ flattenCompleted [waterProgram] = [subProjectItem waterProgram wellA]
    ∧ (flattenCompleted [waterProgram]).map CompletedItem.title = ["Well A"]
    ∧ (flattenCompleted [waterProgram]).map CompletedItem.parentTitle
        = [some "Water Program"] := by
  refine ⟨fun docs it => ?_, fun d s => ⟨rfl, rfl⟩, rfl, rfl, rfl⟩
  rw [flattenCompleted, List.mem_flatMap]
  constructor
  · rintro ⟨d, hd, hit⟩
    rcases (mem_itemsOf d it).mp hit with h | ⟨subs, hsubs, hp, s, hs, hsc, heq⟩
    · exact Or.inl ⟨d, hd, h⟩
    · exact Or.inr ⟨d, hd, subs, hsubs, hp, s, hs, hsc, heq.symm⟩
  · rintro (⟨d, hd, h⟩ | ⟨d, hd, subs, hsubs, hp, s, hs, hsc, heq⟩)
    · exact ⟨d, hd, (mem_itemsOf d it).mpr (Or.inl h)⟩
    · exact ⟨d, hd,
        (mem_itemsOf d it).mpr (Or.inr ⟨subs, hsubs, hp, s, hs, hsc, heq.symm⟩)⟩

/-- Claim C6: the flattened list is sorted by completion date descending; an
item with an absent (or empty) completion date gets sort key epoch zero, and
in the sorted output every item whose key is positive precedes every item
whose key is zero. -/
theorem c6_sorted_by_completion_date :
    (∀ (time : String → ℤ) (it : CompletedItem),
      (it.completionData = none → completedTimestamp time it = 0)
      ∧ (∀ cd, it.completionData = some cd → cd.completedDate = none →
          completedTimestamp time it = 0)
      ∧ (∀ cd, it.completionData = some cd → cd.completedDate = some "" →
          completedTimestamp time it = 0))
    ∧ (∀ (time : String → ℤ) (items : List CompletedItem),
        (sortByDateDesc time items).Perm items)
    ∧ (∀ (time : String → ℤ) (items : List CompletedItem),
        (sortByDateDesc time items).Pairwise
          (fun a b => completedTimestamp time b ≤ completedTimestamp time a))
    ∧ (∀ (time : String → ℤ) (items : List CompletedItem) (i j : ℕ)
        (hi : i < (sortByDateDesc time items).length)
        (hj : j < (sortByDateDesc time items).length),
        completedTimestamp time ((sortByDateDesc time items).get ⟨i, hi⟩) = 0 →
        0 < completedTimestamp time ((sortByDateDesc time items).get ⟨j, hj⟩) →
        j < i) := by
  refine ⟨fun time it => ⟨fun h => ?_, fun cd h h2 => ?_, fun cd h h2 => ?_⟩,
    sortByDateDesc_perm, sortByDateDesc_pairwise,
    fun time items i j hi hj h0 hpos => ?_⟩
  · simp [completedTimestamp, h]
  · simp [completedTimestamp, h, h2]
  · simp [completedTimestamp, h, h2]
  · by_contra hne
    push_neg at hne
    rcases lt_or_eq_of_le hne with hij | hij
    · have hle := (List.pairwise_iff_get.mp
        (sortByDateDesc_pairwise time items)) ⟨i, hi⟩ ⟨j, hj⟩ hij
      omega
    · have hfin : (⟨i, hi⟩ : Fin (sortByDateDesc time items).length) = ⟨j, hj⟩ :=
        Fin.ext hij
      rw [hfin] at h0
      omega

/-- Claim C4 counterexample: a testimonial with the non-blank name Alice but
blank text is removed from the persisted payload, though the claim says an
entry missing only its text is kept. -/
theorem c4_name_without_text_dropped_cex :
    (buildCleanCompletionData c4Form).testimonials = []
    ∧ jsTrim aliceNoText.name ≠ ""
    ∧ jsTrim aliceNoText.text = ""
    ∧ (buildCleanCompletionData c4Form).testimonials ≠ [aliceNoText] := by
  decide

/-- Claim C4, amended: the persisted testimonial list is the form's list with
exactly those entries removed whose trimmed name or trimmed text is blank; an
entry is kept only when both its name and its text are non-blank, in the
original order. -/
theorem c4_testimonial_filter (f : CompletionFormData) :
    (buildCleanCompletionData f).testimonials.Sublist f.testimonials
    ∧ (∀ t : Testimonial,
        t ∈ (buildCleanCompletionData f).testimonials ↔
          (t ∈ f.testimonials ∧ jsTrim t.name ≠ "" ∧ jsTrim t.text ≠ "")) := by
  refine ⟨List.filter_sublist _, fun t => ?_⟩
  simp [buildCleanCompletionData, List.mem_filter, bne_iff_ne, and_assoc]

/-- Claim C5: each persisted image-URL list is the form's list with every
blank or whitespace-only entry removed, survivors in their original order;
the worked example persists exactly the one non-blank URL. -/
theorem c5_image_lists_filtered (f : CompletionFormData) :
    ((buildCleanCompletionData f).beforeImages.Sublist f.beforeImages
      ∧ ∀ u : String, u ∈ (buildCleanCompletionData f).beforeImages ↔
          (u ∈ f.beforeImages ∧ jsTrim u ≠ ""))
    ∧ ((buildCleanCompletionData f).afterImages.Sublist f.afterImages
      ∧ ∀ u : String, u ∈ (buildCleanCompletionData f).afterImages ↔
          (u ∈ f.afterImages ∧ jsTrim u ≠ ""))
    ∧ ((buildCleanCompletionData f).progressImages.Sublist f.progressImages
      ∧ ∀ u : String, u ∈ (buildCleanCompletionData f).progressImages ↔
          (u ∈ f.progressImages ∧ jsTrim u ≠ ""))
    ∧ (buildCleanCompletionData c5Form).beforeImages = ["http://x/1.jpg"] := by
  refine ⟨⟨List.filter_sublist _, fun u => ?_⟩, ⟨List.filter_sublist _, fun u => ?_⟩,
    ⟨List.filter_sublist _, fun u => ?_⟩, by decide⟩ <;>
    simp [buildCleanCompletionData, List.mem_filter, bne_iff_ne]

/-- Claim C8: when the title or description is empty or the goal is
non-positive, both project submit handlers raise their blocking alert and
issue no document write, so the stored document is untouched. -/
theorem c8_validation_blocks_write (editing : Bool) (f : ProjectFormData)
    (h : f.title = "" ∨ f.description = "" ∨ f.goal ≤ 0) :
    (handleProjectSubmit editing f).write = none
    ∧ (handleProjectSubmit editing f).alert = some "Please fill in all required fields"
    ∧ (handleSubmitPage editing f).write = none
    ∧ (handleSubmitPage editing f).alert
        = some "Please fill in all required fields (Title, Description, Goal)" := by
  unfold handleProjectSubmit handleSubmitPage
  rw [if_pos h, if_pos h]
  exact ⟨rfl, rfl, rfl, rfl⟩

/-- Witness for claim C8 at a concrete form whose title is empty. -/
theorem c8_validation_blocks_write_witness :
    (handleProjectSubmit false emptyTitleForm).write = none
    ∧ (handleProjectSubmit false emptyTitleForm).alert
        = some "Please fill in all required fields"
    ∧ (handleSubmitPage false emptyTitleForm).write = none
    ∧ (handleSubmitPage false emptyTitleForm).alert
        = some "Please fill in all required fields (Title, Description, Goal)" :=
  c8_validation_blocks_write false emptyTitleForm (Or.inl rfl)

/-- Claim C9: the exported CSV is the literal header line followed by one
quoted row per transaction, all transactions in list order, each row's cells
wrapped in double quotes and joined with commas; the download filename is
`ledger-<ISO-date>.csv`. -/
theorem c9_csv_export (dateFmt : String → String) (numFmt : ℚ → String)
    (ts : List Transaction) (isoDate : String) :
    csvContent dateFmt numFmt ts
      = String.intercalate "\n"
          ("Date,Type,Description,Project,Amount,Category,Receipt/Payment"
            :: ts.map (csvRowLine dateFmt numFmt))
    ∧ (ts.map (csvRowLine dateFmt numFmt)).length = ts.length
    ∧ (∀ t : Transaction, csvRowLine dateFmt numFmt t
        = String.intercalate ","
            ((csvCells dateFmt numFmt t).map (fun c => "\"" ++ c ++ "\"")))
    ∧ csvFilename isoDate = "ledger-" ++ isoDate ++ ".csv" := by
  have hh : String.intercalate "," csvHeaders
      = "Date,Type,Description,Project,Amount,Category,Receipt/Payment" := by decide
  refine ⟨?_, List.length_map _ _, fun t => rfl, rfl⟩
  rw [csvContent, hh]

/-- Claim C10: each embedded-array write (sub-project edit, sub-project
completion, expense edit, expense delete) keeps every element whose id
differs from the targeted id unchanged and at its original position, and the
delete removes exactly the elements carrying the targeted id. -/
theorem c10_embedded_array_frame :
    (∀ (editingId : String) (f : SubProjectFormData) (subs : List SubProject),
      (editSubProjectsArray editingId f subs).length = subs.length
      ∧ ∀ (i : ℕ) (s : SubProject), subs[i]? = some s → s.id ≠ editingId →
          (editSubProjectsArray editingId f subs)[i]? = some s)
    ∧ (∀ (subId : String) (cd : CompletionData) (subs : List SubProject),
      (completeSubProjectsArray subId cd subs).length = subs.length
      ∧ ∀ (i : ℕ) (s : SubProject), subs[i]? = some s → s.id ≠ subId →
          (completeSubProjectsArray subId cd subs)[i]? = some s)
    ∧ (∀ (editingId : String) (f : ExpenseFormData) (es : List Expense),
      (editExpensesArray editingId f es).length = es.length
      ∧ ∀ (i : ℕ) (e : Expense), es[i]? = some e → e.id ≠ editingId →
          (editExpensesArray editingId f es)[i]? = some e)
    ∧ (∀ (deleteId : String) (es : List Expense),
      (deleteExpenseArray deleteId es).Sublist es
      ∧ ∀ e : Expense,
          e ∈ deleteExpenseArray deleteId es ↔ (e ∈ es ∧ e.id ≠ deleteId)) := by
  refine ⟨fun editingId f subs => ⟨List.length_map _ _, fun i s hi hne => ?_⟩,
    fun subId cd subs => ⟨List.length_map _ _, fun i s hi hne => ?_⟩,
    fun editingId f es => ⟨List.length_map _ _, fun i e hi hne => ?_⟩,
    fun deleteId es => ⟨List.filter_sublist _, fun e => ?_⟩⟩
  · rw [editSubProjectsArray, List.getElem?_map, hi]
    simp [hne]
  · rw [completeSubProjectsArray, List.getElem?_map, hi]
    simp [hne]
  · rw [editExpensesArray, List.getElem?_map, hi]
    simp [hne]
  · simp [deleteExpenseArray, List.mem_filter, bne_iff_ne]

end EmpowerDreamz
